import Mathlib

/-!
Verification development for the ETS2LA repository.

Shallow embedding of the plugin process layer (`ETS2LA/Plugin/plugin.py`),
the local web API (`ETS2LA/networking/webserver.py`), the map data
extractor (`plugins/Map/utils/data_extractor.py`) and the cruise-control
frame function (`plugins/CruiseControl/main.py`).

Machine floats of the source are modelled as exact rationals; Python
dictionaries carrying optional keys are modelled as structures of `Option`
fields; a read of a key that may raise `KeyError` is an `Option` match, and
a `try`/`except` block is a match whose `none` branches run the except
clause. Blocking queues are modelled as lists of pending messages; a
blocking `get()` on an empty queue yields `none` (the call never returns).
-/

/-! ## Queue wiring of `ETS2LAPlugin.__new__` (plugin.py lines 129-164) -/

/-- Queue attributes assigned on the instance by `ETS2LAPlugin.__new__`
(plugin.py lines 141-152), in assignment order. -/
def newInstanceQueueFields : List String :=
  ["return_queue",
   "plugins_queue", "plugins_return_queue",
   "settings_menu_queue", "settings_menu_return_queue",
   "frontend_queue", "frontend_return_queue",
   "immediate_queue", "immediate_return_queue",
   "state_queue",
   "performance_queue", "performance_return_queue"]

/-- The six queue concerns named by the specification. -/
inductive Concern where
  | returnValues
  | settingsMenu
  | frontendCalls
  | immediateDialogs
  | stateConcern
  | perfConcern
deriving DecidableEq, Fintype, Repr

/-- Attribute-name stem of each concern, as used by the queue attribute
names in plugin.py. -/
def concernStem : Concern → String
  | .returnValues => "return"
  | .settingsMenu => "settings_menu"
  | .frontendCalls => "frontend"
  | .immediateDialogs => "immediate"
  | .stateConcern => "state"
  | .perfConcern => "performance"

/-- Whether the constructor wires a forward (request) queue for a concern. -/
def hasForwardQueue (c : Concern) : Bool :=
  newInstanceQueueFields.contains (concernStem c ++ "_queue")

/-- Whether the constructor wires a matching return queue for a concern. -/
def hasReturnQueue (c : Concern) : Bool :=
  newInstanceQueueFields.contains (concernStem c ++ "_return_queue")

/-! ## Helper threads (plugin.py lines 207-245)

Each thread is modelled by the list of replies it places on its return
queue while serving a finite prefix of the (infinite) request stream. -/

/-- The body of `settings_menu_thread` (plugin.py lines 207-212): the
serving loop runs only when the plugin defines a settings menu that is not
`None`; each iteration gets one request, marks it done and puts
`settings_menu.render()` on the settings menu return queue. The menu is
modelled as `Option μ` (`none` when absent or `None`) and `render` as the
function producing the rendered value. -/
def settings_menu_thread_replies {μ ρ : Type} (settingsMenu : Option μ)
    (render : μ → ρ) (requests : List Unit) : List ρ :=
  match settingsMenu with
  | some menu => requests.map (fun _ => render menu)
  | none => []

/-- Outcome of attempting one frontend function dispatch: either the call
returned, or it raised (unknown attribute name, or the function body
failed). -/
inductive DispatchOutcome where
  | ok
  | raisedAttributeError
  | raisedInCall
deriving DecidableEq, Repr

/-- Observable result of one iteration of `frontend_thread`
(plugin.py lines 214-235). -/
structure FrontendIter where
  /-- `task_done()` was called on the frontend queue. -/
  taskDone : Bool
  /-- The single value put on the frontend return queue; the source always
  puts the Python `None`, modelled as `none`. -/
  replyPut : Option Unit
  /-- An error recorded or propagated by the iteration, if any. -/
  recordedError : Option DispatchOutcome
deriving DecidableEq, Repr

/-- The `try`/`except: pass` of `frontend_thread` (lines 218-232): a raised
dispatch outcome is dropped and nothing is recorded. -/
def frontendTryBlock (d : DispatchOutcome) : Option DispatchOutcome :=
  match d with
  | .ok => none
  | .raisedAttributeError => none
  | .raisedInCall => none

/-- One iteration of `frontend_thread` (plugin.py lines 214-235) on a
request whose `operation` field is `op` and whose dispatch attempt has
outcome `d`: the dispatch errors are swallowed, the task is marked done and
`None` is put on the frontend return queue. -/
def frontend_thread_iter (op : String) (d : DispatchOutcome) : FrontendIter :=
  let recorded := if op = "function" then frontendTryBlock d else none
  { taskDone := true, replyPut := none, recordedError := recorded }

/-- One iteration of `performance_thread` (plugin.py lines 237-245): on a
request received at time `now`, entries of `self.performance` whose
timestamp is not greater than `now - 30` are dropped, and the retained list
is both stored back and put on the performance return queue. Returns
(new `self.performance`, reply put on the return queue). -/
def performance_thread_iter (now : ℚ) (performance : List (ℚ × ℚ)) :
    List (ℚ × ℚ) × List (ℚ × ℚ) :=
  let last_30_seconds := now - 30
  let kept := performance.filter (fun x => x.1 > last_30_seconds)
  (kept, kept)

/-- Replies produced by `performance_thread` over a finite prefix of
requests arriving at the given times. -/
def performance_thread_replies (times : List ℚ) (performance : List (ℚ × ℚ)) :
    List (List (ℚ × ℚ)) :=
  match times with
  | [] => []
  | t :: rest =>
    let (st, reply) := performance_thread_iter t performance
    reply :: performance_thread_replies rest st

/-! ## Main plugin loop (plugin.py lines 204-205 and 277-294) -/

/-- Events of one `plugin()` call (plugin.py lines 277-280): `before()`,
then `run()` producing `r`, then `after` applied to that same result. -/
inductive PluginEvent (α : Type) where
  | beforeCall
  | runCall (r : Option α)
  | afterCall (arg : Option α)
deriving DecidableEq, Repr

/-- Trace of one `plugin()` call: `self.before()`, `data = self.run()`,
`self.after(data)`, in this order, `after` receiving the `run` result. -/
def pluginCallTrace {α : Type} (runResult : Option α) : List (PluginEvent α) :=
  [.beforeCall, .runCall runResult, .afterCall runResult]

/-- Queue effect of `after(data)` (plugin.py lines 285-287): `data` is put
on the return queue exactly when it is not `None`. -/
def afterQueuePut {α : Type} (data : Option α) (q : List α) : List α :=
  match data with
  | some d => q ++ [d]
  | none => q

/-- Return-queue contents after the worker loop has executed one iteration
per element of `runResults`, starting from an empty queue. -/
def pluginLoopQueue {α : Type} (runResults : List (Option α)) : List α :=
  runResults.foldl (fun q r => afterQueuePut r q) []

/-- Sleep duration computed by `after` (plugin.py lines 290-292):
`max(1/fps_cap - (end_time - start_time), 0)`, slept only when positive
(sleeping a zero duration and not sleeping are observationally equal). -/
def afterSleepDuration (fps_cap start_time end_time : ℚ) : ℚ :=
  max (1 / fps_cap - (end_time - start_time)) 0

/-! ## Immediate dialog calls (plugin.py lines 247-275)

`notify`, `ask` and `dialog` put one message on the immediate queue and
then call `immediate_return_queue.get()` with no timeout. The pending
contents of the immediate return queue are modelled as a list; a blocking
`get()` returns its head, or `none` when the queue is empty, meaning the
call blocks forever and never returns. -/

/-- A message put on the immediate queue: the `operation` field and its
options payload. -/
structure ImmediateMsg where
  operation : String
  optionsText : String
deriving DecidableEq, Repr

/-- A reply the supervisor would put on the immediate return queue; `ask`
reads its `response` field. -/
structure ImmediateReply where
  response : String
deriving DecidableEq, Repr

/-- Blocking `get()` on a queue modelled as its list of pending items. -/
def blockingGet {α : Type} (q : List α) : Option α :=
  match q with
  | [] => none
  | x :: _ => some x

/-- Messages `notify` (plugin.py lines 247-254) puts on the immediate
queue. -/
def notifyPuts (text ty : String) : List ImmediateMsg :=
  [{ operation := "notify", optionsText := text ++ "/" ++ ty }]

/-- Result of `notify`: the reply got from the immediate return queue, or
`none` when the queue stays empty (the call blocks forever). -/
def notifyResult (returnQueue : List ImmediateReply) : Option ImmediateReply :=
  blockingGet returnQueue

/-- Messages `ask` (plugin.py lines 259-268) puts on the immediate
queue. -/
def askPuts (text description : String) (options : List String) :
    List ImmediateMsg :=
  [{ operation := "ask",
     optionsText := text ++ "/" ++ description ++ "/" ++ String.intercalate "," options }]

/-- Result of `ask`: the `response` field of the reply got from the
immediate return queue, or `none` when the queue stays empty. -/
def askResult (returnQueue : List ImmediateReply) : Option String :=
  (blockingGet returnQueue).map (fun r => r.response)

/-- Messages `dialog` (plugin.py lines 270-275) puts on the immediate
queue; the built dialog payload is abstracted as a string. -/
def dialogPuts (built : String) : List ImmediateMsg :=
  [{ operation := "dialog", optionsText := built }]

/-- Result of `dialog`: the reply got from the immediate return queue, or
`none` when the queue stays empty. -/
def dialogResult (returnQueue : List ImmediateReply) : Option ImmediateReply :=
  blockingGet returnQueue

/-! ## Local HTTP API (webserver.py)

The FastAPI route decorators are modelled as an ordered route table over
path patterns; a request path (already split into segments, so a path
parameter is one segment) is served by the first registered route whose
method and pattern match, as FastAPI matches in registration order. -/

/-- HTTP method of a route. -/
inductive HttpMethod where
  | get
  | post
deriving DecidableEq, Repr, BEq

/-- One segment of a route pattern: a literal, or a path parameter such as
the FastAPI placeholder for a plugin name. -/
inductive PathSeg where
  | lit (s : String)
  | param
deriving DecidableEq, Repr

/-- Handlers defined in webserver.py, in source order. -/
inductive HandlerId where
  | readRoot
  | getFrametimes
  | quitAppH
  | restartAppH
  | getPlugins
  | enablePlugin
  | disablePlugin
  | setPluginSetting
  | setPluginSettings
  | getPluginSetting
  | getPluginSettings
  | changeControl
  | getGitHistory
  | callPluginFunction
  | getServerIP
deriving DecidableEq, Repr

/-- A registered route: method, path pattern and handler. -/
structure ApiRoute where
  method : HttpMethod
  ptn : List PathSeg
  handler : HandlerId

/-- The route table of webserver.py (decorators at lines 33-142), in
registration order. -/
def apiRoutes : List ApiRoute :=
  [⟨.get, [], .readRoot⟩,
   ⟨.get, [.lit "api", .lit "frametimes"], .getFrametimes⟩,
   ⟨.get, [.lit "api", .lit "quit"], .quitAppH⟩,
   ⟨.get, [.lit "api", .lit "restart"], .restartAppH⟩,
   ⟨.get, [.lit "api", .lit "plugins"], .getPlugins⟩,
   ⟨.get, [.lit "api", .lit "plugins", .param, .lit "enable"], .enablePlugin⟩,
   ⟨.get, [.lit "api", .lit "plugins", .param, .lit "disable"], .disablePlugin⟩,
   ⟨.post, [.lit "api", .lit "plugins", .param, .lit "settings", .param, .lit "set"], .setPluginSetting⟩,
   ⟨.post, [.lit "api", .lit "plugins", .param, .lit "settings", .lit "set"], .setPluginSettings⟩,
   ⟨.get, [.lit "api", .lit "plugins", .param, .lit "settings", .param], .getPluginSetting⟩,
   ⟨.get, [.lit "api", .lit "plugins", .param, .lit "settings"], .getPluginSettings⟩,
   ⟨.post, [.lit "api", .lit "controls", .param, .lit "change"], .changeControl⟩,
   ⟨.get, [.lit "api", .lit "git", .lit "history"], .getGitHistory⟩,
   ⟨.post, [.lit "api", .lit "plugins", .param, .lit "call", .param], .callPluginFunction⟩,
   ⟨.get, [.lit "api", .lit "server", .lit "ip"], .getServerIP⟩]

/-- Whether one pattern segment matches one path segment. -/
def segMatches : PathSeg → String → Bool
  | .lit s, x => s == x
  | .param, _ => true

/-- Whether a pattern matches a whole path. -/
def pathMatches : List PathSeg → List String → Bool
  | [], [] => true
  | p :: ps, x :: xs => segMatches p x && pathMatches ps xs
  | _, _ => false

/-- Handler serving a request: the first registered route whose method and
pattern match. -/
def findRoute (m : HttpMethod) (path : List String) : Option HandlerId :=
  (apiRoutes.find? (fun r => r.method == m && pathMatches r.ptn path)).map
    (fun r => r.handler)

/-- Modelled from the spec: the module `ETS2LA/variables.py` is not among
the provided sources; per the spec, quit and restart are the basic app
lifecycle, flagged by the `CLOSE` and `RESTART` globals written in
webserver.py. -/
structure AppFlags where
  CLOSE : Bool
  RESTART : Bool
deriving DecidableEq, Repr

/-- JSON object responses are modelled as key-value string pairs. -/
def okResponse : List (String × String) := [("status", "ok")]

/-- Handler `quitApp` (webserver.py lines 41-44): sets the `CLOSE` flag and
responds with the ok status object. -/
def quitApp (v : AppFlags) : AppFlags × List (String × String) :=
  ({ v with CLOSE := true }, okResponse)

/-- Handler `restartApp` (webserver.py lines 46-49): sets the `RESTART`
flag and responds with the ok status object. -/
def restartApp (v : AppFlags) : AppFlags × List (String × String) :=
  ({ v with RESTART := true }, okResponse)

/-! ## Map data extraction (plugins/Map/utils/data_extractor.py) -/

/-- Effects performed by one `UpdateData` call. -/
structure UpdateEffects where
  /-- `ExtractData` ran (the archive was re-extracted). -/
  extracted : Bool
  /-- `settings.Set` was called to store a hash. -/
  settingsWritten : Bool
deriving DecidableEq, Repr

/-- The function `UpdateData` (data_extractor.py lines 23-39). Inputs are
the current MD5 hex digest of `data.zip` and the stored `DATA_HASH` global
(`none` models the Python `None`). Returns the boolean result, the new
value of `DATA_HASH`, and the effects performed. -/
def UpdateData (newHash : String) (dataHash : Option String) :
    Bool × Option String × UpdateEffects :=
  match dataHash with
  | none => (true, some newHash, ⟨true, true⟩)
  | some stored =>
    if stored ≠ newHash then
      (true, some newHash, ⟨true, true⟩)
    else
      (false, some stored, ⟨false, false⟩)

/-! ## CruiseControl frame function (plugins/CruiseControl/main.py)

The module-level `plugin(data)` function (lines 137-448) is embedded as a
pure function from the settings globals (set by `UpdateSettings`), the
frame input and the mutable module globals to the updated globals and the
control keys written into `data` under the `sdk` dictionary. Game speeds
are exact rationals; `round(x, 1)` is modelled by decimal rounding with
ties to even, as Python rounds. -/

namespace CruiseControl

/-- Python `round(x, 1)` on exact rationals: round to one decimal digit,
ties to even. -/
def pyRound1 (q : ℚ) : ℚ :=
  let t := q * 10
  let f := ⌊t⌋
  let frac := t - (f : ℚ)
  let r : ℤ :=
    if frac < 1/2 then f
    else if frac > 1/2 then f + 1
    else if f % 2 = 0 then f else f + 1
  (r : ℚ) / 10

/-- Settings-derived globals assigned by `UpdateSettings` (lines 79-135);
`acceleration_strength` and `brake_strength` are already divided by 100. -/
structure CCSettings where
  trafficlightdetectionisenabled : Bool
  navigationdetectionisenabled : Bool
  auto_enable : Bool
  stop_trafficlight : Bool
  trafficlight_accelerate : Bool
  auto_accelerate : Bool
  auto_hazard : Bool
  auto_stop : Bool
  show_symbols : Bool
  acceleration_strength : ℚ
  brake_strength : ℚ
deriving DecidableEq, Repr

/-- Constant global `cruisespeed_turn = 30` (line 111). -/
def cruisespeed_turn : ℚ := 30

/-- Constant global `cruisespeed_trafficlight = 0` (line 112). -/
def cruisespeed_trafficlight : ℚ := 0

/-- Mutable module globals surviving between frames (set in
`UpdateSettings` lines 114-135 and mutated by `plugin`). -/
structure CCState where
  wait_for_response : Bool
  wait_for_response_timer : ℚ
  last_hazard_light : Bool
  need_to_disable_hazard_light : Bool
  wait_for_response_hazard_light : Bool
  wait_for_response_hazard_light_timer : ℚ
  last_speed : ℚ
  last_speedlimit : ℚ
  last_cruisecontrolspeed : ℚ
  trafficlight_last_time_without : ℚ
  trafficlight_last_time_with : ℚ
  turnincoming_last_time_with : ℚ
  trafficlight_allow_acceleration : Bool
  user_emergency_braking : Bool
  user_emergency_braking_timer : ℚ
  lanedetected_timer : ℚ
  do_lanedetected_stop : Bool
  last_do_lanedetected_stop : Bool
  last_lanedetected : Bool
deriving DecidableEq, Repr

/-- Readable telemetry fields of `data["api"]`; `none` models a field whose
subscript raises in the `try` block at lines 182-203. The float fields are
the raw metres-per-second or pedal values from the game. -/
structure ApiReads where
  speed : Option ℚ
  speedLimit : Option ℚ
  cruiseControlSpeed : Option ℚ
  userThrottle : Option ℚ
  userBrake : Option ℚ
  lightsHazard : Option Bool
  pause : Option Bool
deriving DecidableEq, Repr

/-- Frame-local values established by the telemetry block
(lines 182-213). -/
structure Locals where
  speed : ℚ
  speedlimit : ℚ
  cruisecontrolspeed : ℚ
  user_accelerating : Bool
  user_throttle : ℚ
  user_braking : Bool
  hazard_light : Bool
  gamepaused : Bool
deriving DecidableEq, Repr

/-- The `except` branch of lines 204-213: every local falls back to the
remembered globals or to an inert value, and `user_emergency_braking` is
cleared. -/
def telemetryFallback (s : CCState) : CCState × Locals :=
  ({ s with user_emergency_braking := false },
   { speed := s.last_speed, speedlimit := s.last_speedlimit,
     cruisecontrolspeed := 0, user_accelerating := false, user_throttle := 0,
     user_braking := false, hazard_light := false, gamepaused := false })

/-- The telemetry `try`/`except` block (lines 182-213). Reads execute in
source order; the first failing subscript jumps to the except branch with
the global updates already performed by the earlier lines kept, exactly as
in Python. `steer` is `DefaultSteering.enabled`. -/
def readTelemetry (steer : Bool) (a : ApiReads) (s : CCState) :
    CCState × Locals :=
  match a.speed with
  | none => telemetryFallback s
  | some rawSpeed =>
    let speed := pyRound1 (rawSpeed * (18/5))
    let s := if speed > 5 ∧ speed > s.last_speed then
        { s with user_emergency_braking := false } else s
    let s := { s with last_speed := speed }
    match a.speedLimit with
    | none => telemetryFallback s
    | some rawLimit =>
      let speedlimit := pyRound1 (rawLimit * (18/5))
      let s := if speedlimit ≠ 0 ∧ speedlimit > 0 then
          { s with last_speedlimit := speedlimit } else s
      match a.cruiseControlSpeed with
      | none => telemetryFallback s
      | some rawCcs =>
        let ccs := pyRound1 (rawCcs * (18/5))
        match a.userThrottle with
        | none => telemetryFallback s
        | some throttle =>
          let ua := if throttle > 1/10 then true else false
          match a.userBrake with
          | none => telemetryFallback s
          | some ub =>
            let braking := if ub > 1/10 then true else false
            let s := if ub > 9/10 ∧ speed > 30 ∧ steer = true then
                { s with user_emergency_braking := true } else s
            match a.lightsHazard with
            | none => telemetryFallback s
            | some hz =>
              match a.pause with
              | none => telemetryFallback s
              | some gp =>
                (s, { speed := speed, speedlimit := speedlimit,
                      cruisecontrolspeed := ccs, user_accelerating := ua,
                      user_throttle := throttle, user_braking := braking,
                      hazard_light := hz, gamepaused := gp })

/-- Reads of `data["NavigationDetection"]` inside the `try` at lines
231-237; `none` models a failing subscript. -/
structure NavReads where
  turnincoming : Option Bool
  lanedetected : Option Bool
deriving DecidableEq, Repr

/-- The navigation `try`/`except: pass` (lines 231-237): a failing read
keeps the updates already made and skips the rest. -/
def navUpdate (now : ℚ) (nav : NavReads) (s : CCState) : CCState :=
  match nav.turnincoming with
  | none => s
  | some ti =>
    let s := if ti then { s with turnincoming_last_time_with := now } else s
    match nav.lanedetected with
    | none => s
    | some ld => if ld then { s with lanedetected_timer := now } else s

/-- The control keys the frame writes into `data["sdk"]`; a `none` field is
a key absent from the dictionary. -/
structure Sdk where
  cruiseControl : Option Bool
  cruiseControlIncrease : Option Bool
  cruiseControlDecrease : Option Bool
  acceleration : Option ℚ
  brake : Option ℚ
deriving DecidableEq, Repr

/-- The empty `data["sdk"] = {}` dictionary created at line 264 when the
key is absent. -/
def emptySdk : Sdk :=
  { cruiseControl := none, cruiseControlIncrease := none,
    cruiseControlDecrease := none, acceleration := none, brake := none }

/-- Values threaded through the sequential ifs of the main control block
(lines 265-296): the sdk dictionary, the globals, and the frame-local
`user_accelerating`, which lines 283 and 292 mutate. -/
structure MB where
  sdk : Sdk
  st : CCState
  ua : Bool
deriving DecidableEq, Repr

/-- Lines 266-271: engage cruise control. -/
def mb1 (cs : CCSettings) (now ts : ℚ) (l : Locals) (m : MB) : MB :=
  if l.speed > 30 ∧ l.cruisecontrolspeed = 0 ∧ cs.auto_enable = true ∧
      m.st.wait_for_response = false ∧ ts ≠ 0 then
    { sdk := { m.sdk with cruiseControl := some true, acceleration := some 0 },
      st := { m.st with wait_for_response := true, wait_for_response_timer := now,
                        trafficlight_allow_acceleration := false },
      ua := m.ua }
  else m

/-- Lines 272-275: raise the cruise control set speed. -/
def mb2 (now ts : ℚ) (l : Locals) (m : MB) : MB :=
  if l.cruisecontrolspeed ≠ 0 ∧ l.cruisecontrolspeed < ts ∧
      m.st.wait_for_response = false ∧ ts ≠ 0 then
    { sdk := { m.sdk with cruiseControlIncrease := some true },
      st := { m.st with wait_for_response := true, wait_for_response_timer := now },
      ua := m.ua }
  else m

/-- Lines 276-279: lower the cruise control set speed. -/
def mb3 (now ts : ℚ) (l : Locals) (m : MB) : MB :=
  if l.cruisecontrolspeed ≠ 0 ∧ l.cruisecontrolspeed > ts ∧
      m.st.wait_for_response = false ∧ ts ≠ 0 then
    { sdk := { m.sdk with cruiseControlDecrease := some true },
      st := { m.st with wait_for_response := true, wait_for_response_timer := now },
      ua := m.ua }
  else m

/-- Lines 280-284: accelerate after a traffic light. -/
def mb4 (cs : CCSettings) (ts : ℚ) (l : Locals) (m : MB) : MB :=
  if l.speed < 30 ∧ l.cruisecontrolspeed = 0 ∧ ts ≠ 0 ∧
      cs.trafficlight_accelerate = true ∧
      m.st.trafficlight_allow_acceleration = true ∧
      m.st.user_emergency_braking = false ∧ m.st.do_lanedetected_stop = false then
    { sdk := { m.sdk with acceleration := some cs.acceleration_strength,
                          brake := some 0 },
      st := m.st,
      ua := if l.user_throttle = cs.acceleration_strength then false else m.ua }
  else m

/-- Lines 285-288: brake towards a zero target speed. -/
def mb5 (cs : CCSettings) (now ts : ℚ) (l : Locals) (m : MB) : MB :=
  if ts = 0 ∧ l.speed > 1 ∧ m.ua = false then
    { sdk := { m.sdk with acceleration := some 0, brake := some cs.brake_strength },
      st := { m.st with user_emergency_braking_timer := now },
      ua := m.ua }
  else m

/-- Lines 289-293: auto accelerate towards the target speed. -/
def mb6 (cs : CCSettings) (ts : ℚ) (l : Locals) (m : MB) : MB :=
  if l.speed < 30 ∧ l.cruisecontrolspeed = 0 ∧ ts ≠ 0 ∧
      cs.auto_accelerate = true ∧ m.st.user_emergency_braking = false ∧
      m.st.do_lanedetected_stop = false then
    { sdk := { m.sdk with acceleration := some cs.acceleration_strength,
                          brake := some 0 },
      st := m.st,
      ua := if l.user_throttle = cs.acceleration_strength then false else m.ua }
  else m

/-- The main control block (lines 265-296): when the game is unpaused and
steering is enabled, the six sequential ifs run in order; otherwise both
`acceleration` and `brake` are zeroed. -/
def mainSdkBlock (cs : CCSettings) (steer : Bool) (now ts : ℚ) (l : Locals)
    (s : CCState) (sdk : Sdk) : MB :=
  if l.gamepaused = false ∧ steer = true then
    mb6 cs ts l (mb5 cs now ts l (mb4 cs ts l (mb3 now ts l
      (mb2 now ts l (mb1 cs now ts l ⟨sdk, s, l.user_accelerating⟩)))))
  else
    ⟨{ sdk with acceleration := some 0, brake := some 0 }, s, l.user_accelerating⟩

/-- The hazard light block (lines 298-313); it only mutates globals (the
sdk writes it mentions are commented out in the source). -/
def autoHazardBlock (cs : CCSettings) (now : ℚ) (l : Locals) (s : CCState) :
    CCState :=
  if cs.auto_hazard = true then
    let s := if now - 1 < s.user_emergency_braking_timer then
        { s with user_emergency_braking := false } else s
    let s := if l.hazard_light ≠ s.last_hazard_light ∨
        now - 1 > s.wait_for_response_hazard_light_timer then
        { s with wait_for_response_hazard_light := false } else s
    let s := if l.hazard_light ≠ s.last_hazard_light ∧ l.hazard_light = false then
        { s with need_to_disable_hazard_light := false } else s
    let s := if s.user_emergency_braking = true ∧ l.hazard_light = false ∧
        s.wait_for_response_hazard_light = false then
        { s with wait_for_response_hazard_light := true,
                 wait_for_response_hazard_light_timer := now,
                 need_to_disable_hazard_light := true } else s
    let s := if s.user_emergency_braking = false ∧ l.hazard_light = true ∧
        s.wait_for_response_hazard_light = false ∧
        s.need_to_disable_hazard_light = true then
        { s with wait_for_response_hazard_light := true,
                 wait_for_response_hazard_light_timer := now } else s
    s
  else s

/-- The auto stop block (lines 315-330). `ua` is the frame-local
`user_accelerating` as left by the main control block. -/
def autoStopBlock (cs : CCSettings) (now : ℚ) (steer : Bool) (l : Locals)
    (lanedetected ua : Bool) (sdk : Sdk) (s : CCState) : Sdk × CCState :=
  if cs.auto_stop = true then
    let s := if l.gamepaused = false ∧ steer = true ∧ lanedetected = false ∧
        s.last_lanedetected = true ∧ ua = false then
        { s with do_lanedetected_stop := true } else s
    let s := if ua = true then { s with do_lanedetected_stop := false } else s
    let sdk := if s.do_lanedetected_stop = true ∧ l.speed > 1 then
        { sdk with brake := some (1/10) } else sdk
    let s := if s.do_lanedetected_stop = true ∧ l.hazard_light = false ∧
        s.wait_for_response_hazard_light = false then
        { s with wait_for_response_hazard_light := true,
                 wait_for_response_hazard_light_timer := now } else s
    let s := if s.do_lanedetected_stop = false ∧ s.last_do_lanedetected_stop = true ∧
        l.hazard_light = true then
        { s with wait_for_response_hazard_light := true,
                 wait_for_response_hazard_light_timer := now } else s
    (sdk, s)
  else (sdk, s)

/-- The symbol overlay block (lines 332-442) as far as control flow goes:
`data["frame"]` is `none` when the key is absent, `some none` when present
but its shape is unreadable, `some (some dims)` otherwise. Returns
(early return taken, frame written); the early returns at lines 336 and 341
skip the final global updates of lines 444-447. Only `data["frame"]` is
written here, never a control key. -/
def symbolsBlock (cs : CCSettings) (frame : Option (Option (ℚ × ℚ))) :
    Bool × Bool :=
  if cs.show_symbols = true then
    match frame with
    | none => (true, false)
    | some none => (true, false)
    | some (some _) => (false, true)
  else (false, false)

/-- Whole frame input of `plugin(data)`: the dictionary entries it reads,
plus `DefaultSteering.enabled` and the current time. -/
structure CCInput where
  currentTime : ℚ
  api : ApiReads
  trafficLight : Option String
  nav : NavReads
  sdk : Option Sdk
  frame : Option (Option (ℚ × ℚ))
  steeringEnabled : Bool
deriving DecidableEq, Repr

/-- Result of one `plugin(data)` call. -/
structure CCResult where
  state : CCState
  sdk : Sdk
  frameWritten : Bool
  earlyReturn : Bool
  /-- Every return point of the source (lines 336, 341 and 448) returns the
  `data` dictionary. -/
  returnsData : Bool
deriving DecidableEq, Repr

/-- Lines 180-259 of `plugin(data)`: the telemetry block followed by the
target speed, traffic light, navigation and wait-for-response updates.
Returns the updated globals, the frame locals, the target speed, and the
`lanedetected` flag. -/
def ccPre (cs : CCSettings) (inp : CCInput) (s0 : CCState) :
    CCState × Locals × ℚ × Bool :=
  let now := inp.currentTime
  let tl := readTelemetry inp.steeringEnabled inp.api s0
  let s1 := tl.1
  let l := tl.2
  let ts0 : ℚ :=
    if l.speedlimit ≠ 0 ∧ l.speedlimit > 0 then l.speedlimit
    else if s1.last_speedlimit ≠ 0 ∧ s1.last_speedlimit > 0 then s1.last_speedlimit
    else 30
  let trafficlight :=
    if cs.trafficlightdetectionisenabled = true then inp.trafficLight.getD "---"
    else "Off"
  let s2 := if cs.navigationdetectionisenabled = true then navUpdate now inp.nav s1 else s1
  let ts1 := if now - 1 < s2.turnincoming_last_time_with then cruisespeed_turn else ts0
  let lanedetected := if now - 1 < s2.lanedetected_timer then true else false
  let s3 := if trafficlight ≠ "Red" then
      { s2 with trafficlight_last_time_without := now }
    else { s2 with trafficlight_last_time_with := now }
  let ts2 := if (now - 1/2 > s3.trafficlight_last_time_without ∨
      now - 1/2 < s3.trafficlight_last_time_with) ∧ cs.stop_trafficlight = true then
      cruisespeed_trafficlight else ts1
  let s4 := if ts2 = 0 ∧ l.speed > 10 then
      { s3 with trafficlight_allow_acceleration := true } else s3
  let s5 := if now - 1 > s4.wait_for_response_timer ∧ s4.wait_for_response = true then
      { s4 with wait_for_response := false } else s4
  let s6 := if s5.last_cruisecontrolspeed ≠ l.cruisecontrolspeed then
      { s5 with wait_for_response := false } else s5
  (s6, l, ts2, lanedetected)

/-- The `plugin(data)` frame function (lines 137-448), assembled from the
blocks above in source order. -/
def pluginFrame (cs : CCSettings) (inp : CCInput) (s0 : CCState) : CCResult :=
  let now := inp.currentTime
  let p := ccPre cs inp s0
  let s6 := p.1
  let l := p.2.1
  let ts2 := p.2.2.1
  let lanedetected := p.2.2.2
  let sdk0 := inp.sdk.getD emptySdk
  let m := mainSdkBlock cs inp.steeringEnabled now ts2 l s6 sdk0
  let s7 := autoHazardBlock cs now l m.st
  let r := autoStopBlock cs now inp.steeringEnabled l lanedetected m.ua m.sdk s7
  let sdk2 := r.1
  let s8 := r.2
  let sb := symbolsBlock cs inp.frame
  if sb.1 = true then
    { state := s8, sdk := sdk2, frameWritten := sb.2, earlyReturn := true,
      returnsData := true }
  else
    { state := { s8 with last_lanedetected := lanedetected,
                         last_do_lanedetected_stop := s8.do_lanedetected_stop,
                         last_hazard_light := l.hazard_light,
                         last_cruisecontrolspeed := l.cruisecontrolspeed },
      sdk := sdk2, frameWritten := sb.2, earlyReturn := false,
      returnsData := true }

/-- A telemetry read sequence in which some subscript of `data["api"]`
raises. -/
def apiReadFails (a : ApiReads) : Prop :=
  a.speed = none ∨ a.speedLimit = none ∨ a.cruiseControlSpeed = none ∨
  a.userThrottle = none ∨ a.userBrake = none ∨ a.lightsHazard = none ∨
  a.pause = none

instance (a : ApiReads) : Decidable (apiReadFails a) := by
  unfold apiReadFails; infer_instance

/-- Example settings: every toggle off except `auto_stop`, symbols off. -/
def exAutoStopSettings : CCSettings :=
  { trafficlightdetectionisenabled := false, navigationdetectionisenabled := false,
    auto_enable := false, stop_trafficlight := false,
    trafficlight_accelerate := false, auto_accelerate := false,
    auto_hazard := false, auto_stop := true, show_symbols := false,
    acceleration_strength := 1/2, brake_strength := 1 }

/-- Example globals: all timers zero, with a lane-detected stop pending
from an earlier frame. -/
def exPendingStopState : CCState :=
  { wait_for_response := false, wait_for_response_timer := 0,
    last_hazard_light := false, need_to_disable_hazard_light := false,
    wait_for_response_hazard_light := false,
    wait_for_response_hazard_light_timer := 0,
    last_speed := 0, last_speedlimit := 0, last_cruisecontrolspeed := 0,
    trafficlight_last_time_without := 0, trafficlight_last_time_with := 0,
    turnincoming_last_time_with := 0, trafficlight_allow_acceleration := false,
    user_emergency_braking := false, user_emergency_braking_timer := 0,
    lanedetected_timer := 0, do_lanedetected_stop := true,
    last_do_lanedetected_stop := true, last_lanedetected := false }

/-- Example frame input: the game reports itself paused, the truck moving
at 10 metres per second (36 kilometres per hour), no pedals pressed,
steering assistance enabled. -/
def exPausedInput : CCInput :=
  { currentTime := 100,
    api := { speed := some 10, speedLimit := some 0, cruiseControlSpeed := some 0,
             userThrottle := some 0, userBrake := some 0,
             lightsHazard := some false, pause := some true },
    trafficLight := none, nav := ⟨none, none⟩, sdk := none, frame := none,
    steeringEnabled := true }

/-- Example frame input whose telemetry read fails at the `pause` field
after the earlier fields were read. -/
def exFailingInput : CCInput :=
  { currentTime := 100,
    api := { speed := some 10, speedLimit := some 0, cruiseControlSpeed := some 0,
             userThrottle := some 0, userBrake := some 0,
             lightsHazard := some false, pause := none },
    trafficLight := none, nav := ⟨none, none⟩, sdk := none, frame := none,
    steeringEnabled := false }

end CruiseControl

/-! ## Theorems -/

/-- C1 counterexample: the claim that every one of the six concerns has
both a forward queue and a matching return queue fails at the state
concern, whose forward queue `state_queue` is wired by the constructor
while no `state_return_queue` exists among the instance queue
attributes. -/
theorem c1_state_concern_counterexample :
    hasForwardQueue Concern.stateConcern = true ∧
    hasReturnQueue Concern.stateConcern = false := by
  decide

/-- C1 (amended): the constructor wires a forward queue for each of the six
concerns, and a matching return queue exactly for the settings menu,
frontend calls, immediate dialogs and performance concerns; the return
values and state concerns get a single unidirectional queue each, with no
matching return queue. -/
theorem c1_queue_wiring_amended :
    (∀ c : Concern, hasForwardQueue c = true) ∧
    hasReturnQueue Concern.settingsMenu = true ∧
    hasReturnQueue Concern.frontendCalls = true ∧
    hasReturnQueue Concern.immediateDialogs = true ∧
    hasReturnQueue Concern.perfConcern = true ∧
    hasReturnQueue Concern.returnValues = false ∧
    hasReturnQueue Concern.stateConcern = false := by
  decide

/-- C4: for every plugin name (and settings key and function name), the
route table serves the enable, disable, single-key settings get and set,
whole-settings get, multi-key settings set and function call endpoints with
the matching handlers, and the quit and restart handlers set the CLOSE and
RESTART flags respectively while responding with the ok status object. -/
theorem c4_api_endpoints (p k f : String) (v : AppFlags) :
    findRoute .get ["api", "plugins", p, "enable"] = some .enablePlugin ∧
    findRoute .get ["api", "plugins", p, "disable"] = some .disablePlugin ∧
    findRoute .get ["api", "plugins", p, "settings", k] = some .getPluginSetting ∧
    findRoute .get ["api", "plugins", p, "settings"] = some .getPluginSettings ∧
    findRoute .post ["api", "plugins", p, "settings", k, "set"] = some .setPluginSetting ∧
    findRoute .post ["api", "plugins", p, "settings", "set"] = some .setPluginSettings ∧
    findRoute .post ["api", "plugins", p, "call", f] = some .callPluginFunction ∧
    findRoute .get ["api", "quit"] = some .quitAppH ∧
    findRoute .get ["api", "restart"] = some .restartAppH ∧
    quitApp v = ({ v with CLOSE := true }, [("status", "ok")]) ∧
    restartApp v = ({ v with RESTART := true }, [("status", "ok")]) := by
  exact ⟨rfl, rfl, rfl, rfl, rfl, rfl, rfl, rfl, rfl, rfl, rfl⟩

/-- C5: whatever the outcome of dispatching the requested function call
(success, unknown attribute, or a raising function body), the frontend
thread iteration is the same: the error is neither recorded nor propagated,
the request is marked done, and the reply put on the frontend return queue
is the Python None, so success and failure are indistinguishable to the
caller. -/
theorem c5_frontend_errors_swallowed (d : DispatchOutcome) :
    frontend_thread_iter "function" d = frontend_thread_iter "function" .ok ∧
    (frontend_thread_iter "function" d).taskDone = true ∧
    (frontend_thread_iter "function" d).replyPut = none ∧
    (frontend_thread_iter "function" d).recordedError = none := by
  cases d <;> exact ⟨rfl, rfl, rfl, rfl⟩

/-- C7: `notify`, `ask` and `dialog` each put exactly one message on the
immediate queue, then block on the immediate return queue with no timeout:
with an empty return queue the call never returns (result `none`), and with
a reply present it returns that reply (for `ask`, its response field). -/
theorem c7_dialog_calls_block (text ty description built : String)
    (options : List String) (r : ImmediateReply) (rest : List ImmediateReply) :
    (notifyPuts text ty).length = 1 ∧
    (askPuts text description options).length = 1 ∧
    (dialogPuts built).length = 1 ∧
    notifyResult [] = none ∧
    askResult [] = none ∧
    dialogResult [] = none ∧
    notifyResult (r :: rest) = some r ∧
    askResult (r :: rest) = some r.response ∧
    dialogResult (r :: rest) = some r := by
  exact ⟨rfl, rfl, rfl, rfl, rfl, rfl, rfl, rfl, rfl⟩

/-- C8: each performance thread iteration first drops every sample whose
timestamp is not greater than the request time minus 30 seconds, stores the
retained list back, and the reply put on the performance return queue is
exactly the retained list: it contains precisely the samples of the last 30
seconds. -/
theorem c8_performance_window (now : ℚ) (perf : List (ℚ × ℚ)) :
    (performance_thread_iter now perf).2 = perf.filter (fun x => x.1 > now - 30) ∧
    (performance_thread_iter now perf).1 = (performance_thread_iter now perf).2 ∧
    (∀ x ∈ (performance_thread_iter now perf).2, x.1 > now - 30) ∧
    (∀ x ∈ perf, x.1 > now - 30 → x ∈ (performance_thread_iter now perf).2) ∧
    (∀ x ∈ perf, ¬(x.1 > now - 30) → x ∉ (performance_thread_iter now perf).2) := by
  refine ⟨rfl, rfl, ?_, ?_, ?_⟩
  · intro x hx
    simp only [performance_thread_iter, List.mem_filter, decide_eq_true_eq] at hx
    exact hx.2
  · intro x hx hgt
    simp only [performance_thread_iter, List.mem_filter, decide_eq_true_eq]
    exact ⟨hx, hgt⟩
  · intro x hx hle hmem
    simp only [performance_thread_iter, List.mem_filter, decide_eq_true_eq] at hmem
    exact hle hmem.2

/-- C8 witness: at request time 100, the sample at timestamp 80 (inside the
30 second window) is kept in the reply while the sample at timestamp 60 is
dropped. -/
theorem c8_performance_window_witness :
    ((80 : ℚ), (1 : ℚ)) ∈ (performance_thread_iter 100 [(80, 1), (60, 2)]).2 ∧
    ((60 : ℚ), (2 : ℚ)) ∉ (performance_thread_iter 100 [(80, 1), (60, 2)]).2 := by
  constructor
  · exact (c8_performance_window 100 [(80, 1), (60, 2)]).2.2.2.1 (80, 1)
      (by simp) (by norm_num)
  · exact (c8_performance_window 100 [(80, 1), (60, 2)]).2.2.2.2 (60, 2)
      (by simp) (by norm_num)

/-- C9: `UpdateData` returns true, re-extracts the archive and writes the
settings exactly when the stored hash is absent or differs from the current
archive hash; after any call the stored hash equals the archive hash, so an
immediately repeated call with an unchanged archive returns false with no
extraction and no settings write. -/
theorem c9_update_data_idempotent (h : String) (st : Option String) :
    ((UpdateData h st).1 = true ↔ (st = none ∨ st ≠ some h)) ∧
    (UpdateData h st).2.2.extracted = (UpdateData h st).1 ∧
    (UpdateData h st).2.2.settingsWritten = (UpdateData h st).1 ∧
    (UpdateData h st).2.1 = some h ∧
    UpdateData h ((UpdateData h st).2.1) = (false, some h, ⟨false, false⟩) := by
  match st with
  | none => simp [UpdateData]
  | some s =>
    by_cases hs : s = h
    · subst hs
      simp [UpdateData]
    · simp [UpdateData, hs]

/-- C9 witness: with a stored hash differing from the archive hash, the
call returns true and stores the archive hash; immediately repeating it
returns false with no extraction and no settings write. -/
theorem c9_update_data_idempotent_witness :
    (UpdateData "a" (some "b")).1 = true ∧
    UpdateData "a" ((UpdateData "a" (some "b")).2.1) =
      (false, some "a", ⟨false, false⟩) := by
  constructor
  · exact ((c9_update_data_idempotent "a" (some "b")).1).mpr (by decide)
  · exact (c9_update_data_idempotent "a" (some "b")).2.2.2.2

/-- Helper for C3: the return queue accumulated by the worker loop is the
sequence of non-None run results, from any starting queue. -/
theorem pluginLoop_foldl_filterMap {α : Type} (results : List (Option α))
    (q : List α) :
    results.foldl (fun acc r => afterQueuePut r acc) q = q ++ results.filterMap id := by
  induction results generalizing q with
  | nil => simp
  | cons r rest ih =>
    rw [List.foldl_cons, ih]
    cases r with
    | none => simp [afterQueuePut]
    | some d => simp [afterQueuePut]

/-- C2 counterexample: for a worker whose plugin has no settings menu, the
settings menu thread does not run forever: its serving loop is skipped
entirely, so a request arriving on the settings menu queue produces no
reply at all, against the claimed one reply per message. -/
theorem c2_settings_thread_counterexample :
    settings_menu_thread_replies (none : Option Unit) (fun _ => (0 : ℕ)) [()] = [] ∧
    (settings_menu_thread_replies (none : Option Unit) (fun _ => (0 : ℕ)) [()]).length ≠
      [()].length := by
  exact ⟨rfl, by decide⟩

/-- C2 (amended): the frontend and performance threads serve every request
with exactly one synchronous reply, and the settings menu thread does so
exactly when the plugin has a settings menu — each settings menu reply
being the result of `settings_menu.render()`; when the plugin has no
settings menu that thread exits at once and serves no request. -/
theorem c2_helper_threads_amended {μ ρ : Type} (menu : μ) (render : μ → ρ)
    (requests : List Unit) (op : String) (d : DispatchOutcome)
    (times : List ℚ) (perf : List (ℚ × ℚ)) :
    (settings_menu_thread_replies (some menu) render requests).length =
      requests.length ∧
    (∀ rep ∈ settings_menu_thread_replies (some menu) render requests,
      rep = render menu) ∧
    settings_menu_thread_replies (none : Option μ) render requests = [] ∧
    (frontend_thread_iter op d).replyPut = none ∧
    (frontend_thread_iter op d).taskDone = true ∧
    (performance_thread_replies times perf).length = times.length := by
  refine ⟨?_, ?_, rfl, rfl, rfl, ?_⟩
  · simp [settings_menu_thread_replies]
  · intro rep hrep
    simp only [settings_menu_thread_replies, List.mem_map] at hrep
    obtain ⟨_, _, hr⟩ := hrep
    exact hr.symm
  · induction times generalizing perf with
    | nil => rfl
    | cons t rest ih =>
      simp [performance_thread_replies, ih]

/-- C2 witness: a plugin with a settings menu replies to each of two
requests with the rendered menu, and the menu-less settings thread, the
frontend iteration and the performance thread behave as stated at concrete
inputs. -/
theorem c2_helper_threads_amended_witness :
    (settings_menu_thread_replies (some 7) (fun n : ℕ => n + 1) [(), ()]).length = 2 ∧
    ((8 : ℕ) ∈ settings_menu_thread_replies (some 7) (fun n : ℕ => n + 1) [(), ()] →
      (8 : ℕ) = 7 + 1) ∧
    (performance_thread_replies [100, 101] [(80, 1)]).length = 2 := by
  have h := c2_helper_threads_amended (μ := ℕ) (ρ := ℕ) 7 (fun n => n + 1)
    [(), ()] "function" .ok [100, 101] [(80, 1)]
  exact ⟨h.1, fun hm => h.2.1 8 hm, h.2.2.2.2.2⟩

/-- C3: one worker loop iteration runs `before`, then `run`, then `after`
on the run result, in this order; `after` puts the result on the return
queue exactly when it is not None, so the queue after any number of
iterations holds exactly the non-None run results in order; and the
iteration then sleeps for the remainder of `1/fps_cap` seconds when it
finished early, and does not sleep otherwise. -/
theorem c3_plugin_loop (α : Type) (d : Option α) (x : α) (q : List α)
    (results : List (Option α)) (fps s e : ℚ) :
    pluginCallTrace d = [.beforeCall, .runCall d, .afterCall d] ∧
    afterQueuePut (some x) q = q ++ [x] ∧
    afterQueuePut (none : Option α) q = q ∧
    pluginLoopQueue results = results.filterMap id ∧
    (e - s < 1 / fps → afterSleepDuration fps s e = 1 / fps - (e - s)) ∧
    (1 / fps ≤ e - s → afterSleepDuration fps s e = 0) := by
  refine ⟨rfl, rfl, rfl, ?_, ?_, ?_⟩
  · simpa using pluginLoop_foldl_filterMap results []
  · intro hlt
    exact max_eq_left (by linarith)
  · intro hge
    exact max_eq_right (by linarith)

/-- C3 witness: with run results [some 1, none, some 2] the return queue
holds [1, 2]; at fps cap 30, an iteration taking 1/60 seconds sleeps the
remaining 1/60 seconds, and one taking 1/10 seconds does not sleep. -/
theorem c3_plugin_loop_witness :
    pluginLoopQueue [some 1, none, some 2] = [1, 2] ∧
    afterSleepDuration 30 0 (1/60) = 1/30 - 1/60 ∧
    afterSleepDuration 30 0 (1/10) = 0 := by
  have h := c3_plugin_loop ℕ none 0 [] [some 1, none, some 2] 30 0 (1/60)
  have h2 := c3_plugin_loop ℕ none 0 [] [some 1, none, some 2] 30 0 (1/10)
  refine ⟨by simpa using h.2.2.2.1, ?_, ?_⟩
  · simpa using h.2.2.2.2.1 (by norm_num)
  · simpa using h2.2.2.2.2.2 (by norm_num)

open CruiseControl

/-- Helper: the fallback locals of the telemetry except branch are the
remembered speed and speed limit, zero cruise control speed, no pedals, no
emergency braking, hazard lights off, game unpaused. -/
theorem telemetryFallback_props (s : CCState) :
    (telemetryFallback s).2.speed = (telemetryFallback s).1.last_speed ∧
    (telemetryFallback s).2.speedlimit = (telemetryFallback s).1.last_speedlimit ∧
    (telemetryFallback s).2.cruisecontrolspeed = 0 ∧
    (telemetryFallback s).2.user_accelerating = false ∧
    (telemetryFallback s).2.user_throttle = 0 ∧
    (telemetryFallback s).2.user_braking = false ∧
    (telemetryFallback s).2.hazard_light = false ∧
    (telemetryFallback s).2.gamepaused = false ∧
    (telemetryFallback s).1.user_emergency_braking = false := by
  simp [telemetryFallback]

/-- Helper: whenever some telemetry read fails, the telemetry block lands
in its except branch. -/
theorem readTelemetry_fails (steer : Bool) (a : ApiReads) (s : CCState)
    (h : apiReadFails a) :
    ∃ t, readTelemetry steer a s = telemetryFallback t := by
  unfold readTelemetry
  cases hsp : a.speed with
  | none => exact ⟨_, rfl⟩
  | some v1 =>
    cases hsl : a.speedLimit with
    | none => exact ⟨_, rfl⟩
    | some v2 =>
      cases hcc : a.cruiseControlSpeed with
      | none => exact ⟨_, rfl⟩
      | some v3 =>
        cases hut : a.userThrottle with
        | none => exact ⟨_, rfl⟩
        | some v4 =>
          cases hub : a.userBrake with
          | none => exact ⟨_, rfl⟩
          | some v5 =>
            cases hlh : a.lightsHazard with
            | none => exact ⟨_, rfl⟩
            | some v6 =>
              cases hpz : a.pause with
              | none => exact ⟨_, rfl⟩
              | some v7 =>
                rcases h with h | h | h | h | h | h | h <;> simp_all

/-- Helper: every return point of the frame function returns the data
dictionary. -/
theorem pluginFrame_returnsData (cs : CCSettings) (inp : CCInput) (s : CCState) :
    (pluginFrame cs inp s).returnsData = true := by
  simp only [pluginFrame]
  split <;> rfl

/-- Helper: the locals component of `ccPre` is the telemetry block
output. -/
theorem ccPre_locals (cs : CCSettings) (inp : CCInput) (s : CCState) :
    (ccPre cs inp s).2.1 = (readTelemetry inp.steeringEnabled inp.api s).2 := rfl

/-- Helper: the telemetry block never changes `do_lanedetected_stop`. -/
theorem readTelemetry_do_stop (steer : Bool) (a : ApiReads) (s : CCState) :
    (readTelemetry steer a s).1.do_lanedetected_stop = s.do_lanedetected_stop := by
  unfold readTelemetry
  cases hsp : a.speed with
  | none => simp [telemetryFallback]
  | some v1 =>
    cases hsl : a.speedLimit with
    | none =>
      simp [telemetryFallback,
        apply_ite (fun t : CCState => t.do_lanedetected_stop)]
    | some v2 =>
      cases hcc : a.cruiseControlSpeed with
      | none =>
        simp [telemetryFallback,
          apply_ite (fun t : CCState => t.do_lanedetected_stop)]
      | some v3 =>
        cases hut : a.userThrottle with
        | none =>
          simp [telemetryFallback,
            apply_ite (fun t : CCState => t.do_lanedetected_stop)]
        | some v4 =>
          cases hub : a.userBrake with
          | none =>
            simp [telemetryFallback,
              apply_ite (fun t : CCState => t.do_lanedetected_stop)]
          | some v5 =>
            cases hlh : a.lightsHazard with
            | none =>
              simp [telemetryFallback,
                apply_ite (fun t : CCState => t.do_lanedetected_stop)]
            | some v6 =>
              cases hpz : a.pause with
              | none =>
                simp [telemetryFallback,
                  apply_ite (fun t : CCState => t.do_lanedetected_stop)]
              | some v7 =>
                simp [apply_ite (fun t : CCState => t.do_lanedetected_stop)]

/-- Helper: the navigation update block never changes
`do_lanedetected_stop`. -/
theorem navUpdate_do_stop (now : ℚ) (nav : NavReads) (s : CCState) :
    (navUpdate now nav s).do_lanedetected_stop = s.do_lanedetected_stop := by
  unfold navUpdate
  rcases nav with ⟨_ | t, _ | ld⟩ <;>
    simp [apply_ite (fun u : CCState => u.do_lanedetected_stop)]

/-- Helper: the pre-control pipeline never changes
`do_lanedetected_stop`. -/
theorem ccPre_do_stop (cs : CCSettings) (inp : CCInput) (s : CCState) :
    (ccPre cs inp s).1.do_lanedetected_stop = s.do_lanedetected_stop := by
  simp only [ccPre]
  simp [apply_ite (fun t : CCState => t.do_lanedetected_stop),
    readTelemetry_do_stop, navUpdate_do_stop]

/-- Helper: the hazard light block never changes `do_lanedetected_stop`. -/
theorem autoHazardBlock_do_stop (cs : CCSettings) (now : ℚ) (l : Locals)
    (s : CCState) :
    (autoHazardBlock cs now l s).do_lanedetected_stop = s.do_lanedetected_stop := by
  unfold autoHazardBlock
  simp [apply_ite (fun t : CCState => t.do_lanedetected_stop)]

/-- Helper: when the game is paused or steering is disabled, the main
control block takes its else branch: it zeroes acceleration and brake and
leaves the globals and the frame-local `user_accelerating` unchanged. -/
theorem mainSdkBlock_paused (cs : CCSettings) (steer : Bool) (now ts : ℚ)
    (l : Locals) (s : CCState) (sdk : Sdk)
    (h : l.gamepaused = true ∨ steer = false) :
    mainSdkBlock cs steer now ts l s sdk =
      ⟨{ sdk with acceleration := some 0, brake := some 0 }, s,
        l.user_accelerating⟩ := by
  unfold mainSdkBlock
  rcases h with h | h <;> simp [h]

/-- Helper: when the game is paused or steering is disabled, the auto stop
block leaves the sdk dictionary unchanged except that it writes a 0.1
brake when a lane-detected stop is pending, the user is not accelerating,
and the truck is moving. -/
theorem autoStopBlock_sdk_paused (cs : CCSettings) (now : ℚ) (steer : Bool)
    (l : Locals) (ld ua : Bool) (sdk : Sdk) (s : CCState)
    (h : l.gamepaused = true ∨ steer = false) :
    (autoStopBlock cs now steer l ld ua sdk s).1 =
      (if cs.auto_stop = true ∧ s.do_lanedetected_stop = true ∧ ua = false ∧
          l.speed > 1 then { sdk with brake := some (1/10) } else sdk) := by
  unfold autoStopBlock
  have hng : ¬(l.gamepaused = false ∧ steer = true ∧ ld = false ∧
      s.last_lanedetected = true ∧ ua = false) := by
    rcases h with h | h <;> simp [h]
  by_cases hstop : cs.auto_stop = true
  · rw [if_pos hstop]
    dsimp only
    rw [if_neg hng]
    by_cases hua : ua = true
    · rw [if_pos hua]
      simp [hua]
    · rw [if_neg hua]
      simp only [Bool.not_eq_true] at hua
      simp [hstop, hua]
  · rw [if_neg hstop]
    simp only [Bool.not_eq_true] at hstop
    simp [hstop]

/-- Helper: the sdk dictionary returned by the frame function is the one
produced by the auto stop block, fed by the main control block and the
hazard light block; the symbol overlay never writes a control key. -/
theorem pluginFrame_sdk (cs : CCSettings) (inp : CCInput) (s0 : CCState) :
    (pluginFrame cs inp s0).sdk =
      (autoStopBlock cs inp.currentTime inp.steeringEnabled
        (ccPre cs inp s0).2.1 (ccPre cs inp s0).2.2.2
        (mainSdkBlock cs inp.steeringEnabled inp.currentTime
          (ccPre cs inp s0).2.2.1 (ccPre cs inp s0).2.1 (ccPre cs inp s0).1
          (inp.sdk.getD emptySdk)).ua
        (mainSdkBlock cs inp.steeringEnabled inp.currentTime
          (ccPre cs inp s0).2.2.1 (ccPre cs inp s0).2.1 (ccPre cs inp s0).1
          (inp.sdk.getD emptySdk)).sdk
        (autoHazardBlock cs inp.currentTime (ccPre cs inp s0).2.1
          (mainSdkBlock cs inp.steeringEnabled inp.currentTime
            (ccPre cs inp s0).2.2.1 (ccPre cs inp s0).2.1 (ccPre cs inp s0).1
            (inp.sdk.getD emptySdk)).st)).1 := by
  simp only [pluginFrame]
  split <;> rfl

/-- C10 counterexample: with `auto_stop` enabled and a lane-detected stop
pending from an earlier frame, a frame whose telemetry reports the game
paused still writes the driving command brake = 0.1 into the sdk
dictionary, instead of the claimed 0. -/
theorem c10_paused_brake_counterexample :
    (readTelemetry exPausedInput.steeringEnabled exPausedInput.api
      exPendingStopState).2.gamepaused = true ∧
    (pluginFrame exAutoStopSettings exPausedInput exPendingStopState).sdk.brake =
      some (1/10) ∧
    some ((1 : ℚ)/10) ≠ some (0 : ℚ) := by
  refine ⟨?_, ?_, by norm_num⟩
  · norm_num [readTelemetry, exPausedInput, exPendingStopState, pyRound1]
  · have hstr : ¬(("Off" : String) = "Red") := by decide
    norm_num [pluginFrame, ccPre, readTelemetry, pyRound1, mainSdkBlock,
      autoHazardBlock, autoStopBlock, symbolsBlock, navUpdate, emptySdk,
      exAutoStopSettings, exPausedInput, exPendingStopState, hstr,
      cruisespeed_turn, cruisespeed_trafficlight, mb1, mb2, mb3, mb4, mb5, mb6]

/-- C10 (amended): whenever the game is paused or steering assistance is
disabled, the frame writes acceleration = 0 and no cruise control engage,
increase or decrease command; brake is 0, except that when `auto_stop` is
enabled, a lane-detected stop is pending, the user is not accelerating and
the speed exceeds 1, the auto stop block afterwards overwrites brake with
0.1. -/
theorem c10_no_commands_when_paused_amended (cs : CCSettings) (inp : CCInput)
    (s : CCState)
    (h : (readTelemetry inp.steeringEnabled inp.api s).2.gamepaused = true ∨
         inp.steeringEnabled = false) :
    (pluginFrame cs inp s).sdk.cruiseControl =
      (inp.sdk.getD emptySdk).cruiseControl ∧
    (pluginFrame cs inp s).sdk.cruiseControlIncrease =
      (inp.sdk.getD emptySdk).cruiseControlIncrease ∧
    (pluginFrame cs inp s).sdk.cruiseControlDecrease =
      (inp.sdk.getD emptySdk).cruiseControlDecrease ∧
    (pluginFrame cs inp s).sdk.acceleration = some 0 ∧
    (pluginFrame cs inp s).sdk.brake =
      (if cs.auto_stop = true ∧ s.do_lanedetected_stop = true ∧
          (readTelemetry inp.steeringEnabled inp.api s).2.user_accelerating = false ∧
          (readTelemetry inp.steeringEnabled inp.api s).2.speed > 1
       then some (1/10) else some 0) := by
  have hl : (ccPre cs inp s).2.1 = (readTelemetry inp.steeringEnabled inp.api s).2 :=
    ccPre_locals cs inp s
  have hpre : (ccPre cs inp s).2.1.gamepaused = true ∨ inp.steeringEnabled = false := by
    rw [hl]; exact h
  have hmb := mainSdkBlock_paused cs inp.steeringEnabled inp.currentTime
    (ccPre cs inp s).2.2.1 (ccPre cs inp s).2.1 (ccPre cs inp s).1
    (inp.sdk.getD emptySdk) hpre
  have hsb := autoStopBlock_sdk_paused cs inp.currentTime inp.steeringEnabled
    (ccPre cs inp s).2.1 (ccPre cs inp s).2.2.2
    (mainSdkBlock cs inp.steeringEnabled inp.currentTime
      (ccPre cs inp s).2.2.1 (ccPre cs inp s).2.1 (ccPre cs inp s).1
      (inp.sdk.getD emptySdk)).ua
    (mainSdkBlock cs inp.steeringEnabled inp.currentTime
      (ccPre cs inp s).2.2.1 (ccPre cs inp s).2.1 (ccPre cs inp s).1
      (inp.sdk.getD emptySdk)).sdk
    (autoHazardBlock cs inp.currentTime (ccPre cs inp s).2.1
      (mainSdkBlock cs inp.steeringEnabled inp.currentTime
        (ccPre cs inp s).2.2.1 (ccPre cs inp s).2.1 (ccPre cs inp s).1
        (inp.sdk.getD emptySdk)).st) hpre
  rw [pluginFrame_sdk, hsb, hmb]
  simp only [autoHazardBlock_do_stop, ccPre_do_stop, hl,
    apply_ite (fun k : Sdk => k.cruiseControl),
    apply_ite (fun k : Sdk => k.cruiseControlIncrease),
    apply_ite (fun k : Sdk => k.cruiseControlDecrease),
    apply_ite (fun k : Sdk => k.acceleration),
    apply_ite (fun k : Sdk => k.brake)]
  refine ⟨by simp, by simp, by simp, by simp, ?_⟩
  simp

/-- C10 amended witness: at the concrete paused frame, the theorem applies
and yields acceleration 0 and no cruise control engage command. -/
theorem c10_no_commands_when_paused_amended_witness :
    (readTelemetry exPausedInput.steeringEnabled exPausedInput.api
      exPendingStopState).2.gamepaused = true ∧
    (pluginFrame exAutoStopSettings exPausedInput exPendingStopState).sdk.acceleration =
      some 0 ∧
    (pluginFrame exAutoStopSettings exPausedInput exPendingStopState).sdk.cruiseControl =
      none := by
  have hgp : (readTelemetry exPausedInput.steeringEnabled exPausedInput.api
      exPendingStopState).2.gamepaused = true := by
    norm_num [readTelemetry, exPausedInput, exPendingStopState, pyRound1]
  have h := c10_no_commands_when_paused_amended exAutoStopSettings exPausedInput
    exPendingStopState (Or.inl hgp)
  refine ⟨hgp, h.2.2.2.1, ?_⟩
  rw [h.1]
  rfl

/-- C6: whenever some telemetry read of the cruise control frame fails, the
frame falls back to the remembered speed and speed limit, a zero cruise
control speed, no acceleration, braking or emergency braking by the user,
hazard lights off and game unpaused, and the frame function still returns
the data dictionary. -/
theorem c6_cruisecontrol_telemetry_fallback (cs : CCSettings) (inp : CCInput)
    (s : CCState) (h : apiReadFails inp.api) :
    (readTelemetry inp.steeringEnabled inp.api s).2.speed =
      (readTelemetry inp.steeringEnabled inp.api s).1.last_speed ∧
    (readTelemetry inp.steeringEnabled inp.api s).2.speedlimit =
      (readTelemetry inp.steeringEnabled inp.api s).1.last_speedlimit ∧
    (readTelemetry inp.steeringEnabled inp.api s).2.cruisecontrolspeed = 0 ∧
    (readTelemetry inp.steeringEnabled inp.api s).2.user_accelerating = false ∧
    (readTelemetry inp.steeringEnabled inp.api s).2.user_throttle = 0 ∧
    (readTelemetry inp.steeringEnabled inp.api s).2.user_braking = false ∧
    (readTelemetry inp.steeringEnabled inp.api s).2.hazard_light = false ∧
    (readTelemetry inp.steeringEnabled inp.api s).2.gamepaused = false ∧
    (readTelemetry inp.steeringEnabled inp.api s).1.user_emergency_braking = false ∧
    (pluginFrame cs inp s).returnsData = true := by
  obtain ⟨t, ht⟩ := readTelemetry_fails inp.steeringEnabled inp.api s h
  rw [ht]
  have hp := telemetryFallback_props t
  exact ⟨hp.1, hp.2.1, hp.2.2.1, hp.2.2.2.1, hp.2.2.2.2.1, hp.2.2.2.2.2.1,
    hp.2.2.2.2.2.2.1, hp.2.2.2.2.2.2.2.1, hp.2.2.2.2.2.2.2.2,
    pluginFrame_returnsData cs inp s⟩

/-- C6 witness: at a concrete frame whose `pause` read fails, the theorem
applies: the cruise control speed is 0, the game is treated as unpaused,
emergency braking is cleared, and the frame returns the data dictionary. -/
theorem c6_cruisecontrol_telemetry_fallback_witness :
    apiReadFails exFailingInput.api ∧
    (readTelemetry exFailingInput.steeringEnabled exFailingInput.api
      exPendingStopState).2.cruisecontrolspeed = 0 ∧
    (readTelemetry exFailingInput.steeringEnabled exFailingInput.api
      exPendingStopState).2.gamepaused = false ∧
    (readTelemetry exFailingInput.steeringEnabled exFailingInput.api
      exPendingStopState).1.user_emergency_braking = false ∧
    (pluginFrame exAutoStopSettings exFailingInput exPendingStopState).returnsData =
      true := by
  have hfail : apiReadFails exFailingInput.api := by decide
  have h := c6_cruisecontrol_telemetry_fallback exAutoStopSettings exFailingInput
    exPendingStopState hfail
  exact ⟨hfail, h.2.2.1, h.2.2.2.2.2.2.2.1, h.2.2.2.2.2.2.2.2.1,
    h.2.2.2.2.2.2.2.2.2⟩
